import Mathlib

/-!
Shallow embedding of the TAB-RECORDER streaming ingestion pipeline.

Backend (Go, src/Backend): `services/filewriter.go`, `services/recorder.go`,
`services/stats.go`, `handlers/recordings.go`.  The Go code mutates maps and
files; here every operation is a pure function from an explicit state to a new
state paired with the error value the Go function returns (`Option String`,
`none` = Go's `nil` error).  Disk-I/O primitives (`os.Create`,
`bufio.Writer.Write`, `Flush`, `os.File.Close`) can fail in Go; their outcomes
are injected through explicit fault records, `false` meaning the primitive
succeeds.

Producer (JavaScript, src/unnamed/part_001, the offscreen document): modelled
as event-step machines over the module-level mutable variables
(`pendingChunks`, `stopRequested`, `stopResolve`), with one atomic step per
synchronous segment of the handlers.
-/

namespace TabRecorder

/-- Association-list lookup, modelling `sync.Map.Load`. -/
def lookupK {α β : Type} [DecidableEq α] : List (α × β) → α → Option β
  | [], _ => none
  | (k', v) :: rest, k => if k' = k then some v else lookupK rest k

/-- Association-list store, modelling `sync.Map.Store` (replace or append). -/
def storeK {α β : Type} [DecidableEq α] : List (α × β) → α → β → List (α × β)
  | [], k, v => [(k, v)]
  | (k', v') :: rest, k, v =>
    if k' = k then (k, v) :: rest else (k', v') :: storeK rest k v

/-- Association-list delete, modelling `sync.Map.Delete` / `LoadAndDelete`. -/
def eraseK {α β : Type} [DecidableEq α] : List (α × β) → α → List (α × β)
  | [], _ => []
  | (k', v') :: rest, k =>
    if k' = k then eraseK rest k else (k', v') :: eraseK rest k

/-- Set-like insert for `sync.Map` entries used as a set (value `true`). -/
def insertS (l : List Int) (k : Int) : List Int :=
  if k ∈ l then l else l ++ [k]

/-- Set-like delete. -/
def eraseS : List Int → Int → List Int
  | [], _ => []
  | x :: rest, k => if x = k then eraseS rest k else x :: eraseS rest k

/-- One on-disk file: its byte content and how many times `os.File.Close`
has been invoked on a handle for it. -/
structure FileRec where
  content : List Nat
  closes : Nat
deriving DecidableEq, Repr

/-- The file system: path ↦ file record. -/
abbrev FS := List (String × FileRec)

/-- Models `os.Create`: creates or truncates the named file. -/
def fsCreate (fs : FS) (fn : String) : FS :=
  match lookupK fs fn with
  | some r => storeK fs fn { content := [], closes := r.closes }
  | none => storeK fs fn { content := [], closes := 0 }

/-- Append bytes to a file (the effect of a successful `bufio.Writer.Flush`). -/
def fsAppend (fs : FS) (fn : String) (bytes : List Nat) : FS :=
  match lookupK fs fn with
  | some r => storeK fs fn { r with content := r.content ++ bytes }
  | none => storeK fs fn { content := bytes, closes := 0 }

/-- Models `os.File.Close` on the named file (counts invocations). -/
def fsClose (fs : FS) (fn : String) : FS :=
  match lookupK fs fn with
  | some r => storeK fs fn { r with closes := r.closes + 1 }
  | none => storeK fs fn { content := [], closes := 1 }

/-- Embeds `fileHandle` from filewriter.go: the open file's name plus the bytes
sitting in the `bufio.Writer` buffer that have not been flushed yet. -/
structure Handle where
  filename : String
  buffer : List Nat
deriving DecidableEq, Repr

/-- Embeds `FileWriterService` from filewriter.go. -/
structure FileWriterService where
  activeFiles : List (Int × Handle)
  downloadDir : String
  totalSize : Int
deriving DecidableEq, Repr

/-- Embeds `Stats` from stats.go (the persisted `json` fields plus the dirty flag;
`lastSave`, the save ticker and the file path are wall-clock / IO plumbing). -/
structure Stats where
  TotalSizeBytes : Int
  TotalSessions : Int
  dirty : Bool
deriving DecidableEq, Repr

/-- Embeds `SessionInfo` from recorder.go (`StartTime` is wall-clock, omitted). -/
structure SessionInfo where
  TabID : Int
  Name : String
  BytesWritten : Int
deriving DecidableEq, Repr

/-- Embeds `RecorderService` from recorder.go (the three `sync.Map`s). -/
structure RecorderService where
  activeRecordings : List Int
  stoppedRecordings : List Int
  sessionInfo : List (Int × SessionInfo)
deriving DecidableEq, Repr

/-- The whole receiver-side state: recorder, file writer, stats, disk. -/
structure Sys where
  rs : RecorderService
  fws : FileWriterService
  stats : Stats
  fs : FS
deriving DecidableEq, Repr

/-- Fault injection for `WriteChunk`: which disk primitive fails. -/
structure WFaults where
  createFail : Bool
  writeFail : Bool
  flushFail : Bool
deriving DecidableEq, Repr

/-- Fault injection for `CloseFile`. -/
structure CFaults where
  flushFail : Bool
  closeFail : Bool
deriving DecidableEq, Repr

/-- All disk primitives succeed. -/
def wOK : WFaults := ⟨false, false, false⟩

/-- Flush and close succeed. -/
def cOK : CFaults := ⟨false, false⟩

/-- Models `filepath.Join(downloadDir, fmt.Sprintf("%s_%d_%d.webm", name, tabID,
timestamp))` from `createFile`. -/
def mkFilename (dir name : String) (tabID timestamp : Int) : String :=
  dir ++ "/" ++ name ++ "_" ++ toString tabID ++ "_" ++ toString timestamp ++ ".webm"

/-- The body of `WriteChunk` once a handle is in hand (filewriter.go:52-74):
buffered write, then add `bytesWritten` to `totalSize`, then flush.  On a
write failure the function returns before touching `totalSize`; on a flush
failure it returns after `totalSize` was already increased. -/
def writeToHandle (fws : FileWriterService) (fs : FS) (tabID : Int) (h : Handle)
    (data : List Nat) (wf : WFaults) : FileWriterService × FS × Option String :=
  if wf.writeFail then (fws, fs, some "disk write failed")
  else
    let h1 : Handle := { h with buffer := h.buffer ++ data }
    let fws1 : FileWriterService :=
      { fws with activeFiles := storeK fws.activeFiles tabID h1,
                 totalSize := fws.totalSize + data.length }
    if wf.flushFail then (fws1, fs, some "disk flush failed")
    else
      let fs1 := fsAppend fs h1.filename h1.buffer
      let h2 : Handle := { h1 with buffer := [] }
      ({ fws1 with activeFiles := storeK fws1.activeFiles tabID h2 }, fs1, none)

/-- Embeds `FileWriterService.WriteChunk` (filewriter.go:43-75), with
`getOrCreateHandle`/`createFile` (filewriter.go:112-157) inlined: look up the
handle; if absent, create the file (deriving the name from this chunk's
`name`/`timestamp`) and store the handle; then write and flush. -/
def WriteChunk (fws : FileWriterService) (fs : FS) (tabID : Int) (name : String)
    (timestamp : Int) (data : List Nat) (wf : WFaults) :
    FileWriterService × FS × Option String :=
  match lookupK fws.activeFiles tabID with
  | some h => writeToHandle fws fs tabID h data wf
  | none =>
    if wf.createFail then (fws, fs, some "failed to get file handle")
    else
      let fn := mkFilename fws.downloadDir name tabID timestamp
      let fs1 := fsCreate fs fn
      let h : Handle := { filename := fn, buffer := [] }
      let fws1 : FileWriterService := { fws with activeFiles := storeK fws.activeFiles tabID h }
      writeToHandle fws1 fs1 tabID h data wf

/-- Embeds `FileWriterService.CloseFile` (filewriter.go:77-103): `LoadAndDelete` the
handle — absent means already closed or never started, return `nil`; present:
final flush (failure only logged), then `file.Close` (failure returned). -/
def CloseFile (fws : FileWriterService) (fs : FS) (tabID : Int) (cf : CFaults) :
    FileWriterService × FS × Option String :=
  match lookupK fws.activeFiles tabID with
  | none => (fws, fs, none)
  | some h =>
    let fws1 : FileWriterService := { fws with activeFiles := eraseK fws.activeFiles tabID }
    let fs1 := if cf.flushFail then fs else fsAppend fs h.filename h.buffer
    let fs2 := fsClose fs1 h.filename
    if cf.closeFail then (fws1, fs2, some "failed to close file")
    else (fws1, fs2, none)

/-- Embeds `FileWriterService.GetTotalRecordedSize` (filewriter.go:159-163). -/
def GetTotalRecordedSize (fws : FileWriterService) : Int :=
  fws.totalSize

/-- Embeds `Stats.AddSize` (stats.go:111-116).  No code in the repository calls it. -/
def Stats.AddSize (s : Stats) (bytes : Int) : Stats :=
  { s with TotalSizeBytes := s.TotalSizeBytes + bytes, dirty := true }

/-- Embeds `Stats.IncrementSession` (stats.go:118-123). -/
def Stats.IncrementSession (s : Stats) : Stats :=
  { s with TotalSessions := s.TotalSessions + 1, dirty := true }

/-- Embeds `RecorderService.HandleRecording` (recorder.go:40-98) acting on the whole
system state.  The `"stream"` branch: reject if the stopped marker is set;
register a new session (increment the session count, create `SessionInfo`)
when the tab is not active; mark active; `WriteChunk`; on success add the
chunk length to the session's byte count.  The `"stopped"` branch: set the
stopped marker, drop the tab from the active set and session map, `CloseFile`
(an error is wrapped and returned, the marker stays), and on success delete
the stopped marker again.  Any other status is an error. -/
def HandleRecording (sys : Sys) (tabID : Int) (name : String) (timestamp : Int)
    (data : List Nat) (status : String) (wf : WFaults) (cf : CFaults) :
    Sys × Option String :=
  if status = "stream" then
    if tabID ∈ sys.rs.stoppedRecordings then
      (sys, some ("recording already stopped for tab " ++ toString tabID))
    else
      let si0 : SessionInfo := { TabID := tabID, Name := name, BytesWritten := 0 }
      let rs1 : RecorderService :=
        if tabID ∈ sys.rs.activeRecordings then sys.rs
        else { sys.rs with sessionInfo := storeK sys.rs.sessionInfo tabID si0 }
      let stats1 : Stats :=
        if tabID ∈ sys.rs.activeRecordings then sys.stats
        else sys.stats.IncrementSession
      let rs2 : RecorderService :=
        { rs1 with activeRecordings := insertS rs1.activeRecordings tabID }
      match WriteChunk sys.fws sys.fs tabID name timestamp data wf with
      | (fws1, fs1, some e) =>
        ({ sys with rs := rs2, fws := fws1, stats := stats1, fs := fs1 },
         some ("failed to write recording chunk: " ++ e))
      | (fws1, fs1, none) =>
        let rs3 : RecorderService :=
          match lookupK rs2.sessionInfo tabID with
          | some si =>
            let si1 : SessionInfo := { si with BytesWritten := si.BytesWritten + data.length }
            { rs2 with sessionInfo := storeK rs2.sessionInfo tabID si1 }
          | none => rs2
        ({ sys with rs := rs3, fws := fws1, stats := stats1, fs := fs1 }, none)
  else if status = "stopped" then
    let rs1 : RecorderService :=
      { sys.rs with
          stoppedRecordings := insertS sys.rs.stoppedRecordings tabID,
          activeRecordings := eraseS sys.rs.activeRecordings tabID,
          sessionInfo := eraseK sys.rs.sessionInfo tabID }
    match CloseFile sys.fws sys.fs tabID cf with
    | (fws1, fs1, some e) =>
      ({ sys with rs := rs1, fws := fws1, fs := fs1 },
       some ("failed to stop recording: " ++ e))
    | (fws1, fs1, none) =>
      ({ sys with
           rs := { rs1 with stoppedRecordings := eraseS rs1.stoppedRecordings tabID },
           fws := fws1, fs := fs1 }, none)
  else
    (sys, some ("unknown status: " ++ status))

/-- A decoded request body at the ingestion endpoint (handlers/recordings.go):
the JSON envelope has been parsed; `dataEnc` is the outcome of base64-decoding
the `data` field (`none` = invalid encoding). -/
structure ReqBody where
  tabID : Int
  name : String
  timestamp : Int
  dataEnc : Option (List Nat)
  status : String
deriving DecidableEq, Repr

/-- Embeds `RecordingsHandler.Handle` (handlers/recordings.go:23-50) after JSON
decoding, returning the new state and the HTTP status code: 400 for an invalid
base64 payload on a `"stream"` request, 500 when `HandleRecording` returns an
error, 202 on success.  For a non-`"stream"` status the decoded data is `nil`
(here `[]`). -/
def handleRequest (sys : Sys) (req : ReqBody) (wf : WFaults) (cf : CFaults) :
    Sys × Nat :=
  if req.status = "stream" then
    match req.dataEnc with
    | none => (sys, 400)
    | some d =>
      match HandleRecording sys req.tabID req.name req.timestamp d "stream" wf cf with
      | (sys1, some _) => (sys1, 500)
      | (sys1, none) => (sys1, 202)
  else
    match HandleRecording sys req.tabID req.name req.timestamp [] req.status wf cf with
    | (sys1, some _) => (sys1, 500)
    | (sys1, none) => (sys1, 202)

/-- A zero-initialized `Stats` struct (before `Load`). -/
def initStats : Stats := { TotalSizeBytes := 0, TotalSessions := 0, dirty := false }

/-- Freshly started receiver: empty maps, empty disk, zero totals. -/
def initSys (dir : String) : Sys :=
  { rs := { activeRecordings := [], stoppedRecordings := [], sessionInfo := [] },
    fws := { activeFiles := [], downloadDir := dir, totalSize := 0 },
    stats := initStats,
    fs := [] }

/-- Skip JSON whitespace. -/
def skipWs : List Char → List Char
  | c :: cs => if c = ' ' ∨ c = '\n' ∨ c = '\t' ∨ c = '\r' then skipWs cs else c :: cs
  | [] => []

/-- Expect an exact character sequence. -/
def expectChars : List Char → List Char → Option (List Char)
  | [], cs => some cs
  | _ :: _, [] => none
  | p :: ps, c :: cs => if c = p then expectChars ps cs else none

/-- Parse a nonempty run of decimal digits. -/
def parseNatChars (cs : List Char) : Option (Nat × List Char) :=
  let ds := cs.takeWhile Char.isDigit
  if ds.isEmpty then none
  else some (ds.foldl (fun a c => a * 10 + (c.toNat - 48)) 0, cs.dropWhile Char.isDigit)

/-- Parse a JSON integer (optional minus sign, then digits). -/
def parseIntChars : List Char → Option (Int × List Char)
  | '-' :: cs => (parseNatChars cs).map (fun p => (-(p.1 : Int), p.2))
  | cs => (parseNatChars cs).map (fun p => ((p.1 : Int), p.2))

/-- Expect `"key"` followed by optional whitespace and a colon. -/
def expectKey (k : String) (cs : List Char) : Option (List Char) :=
  match expectChars ('"' :: k.data ++ ['"']) (skipWs cs) with
  | none => none
  | some cs1 =>
    match skipWs cs1 with
    | ':' :: cs2 => some cs2
    | _ => none

/-- Models `encoding/json.Unmarshal` into the `Stats` struct, restricted to the
object shape the program itself persists with `MarshalIndent`:
`\x7b "totalSizeBytes": <int>, "totalSessions": <int> \x7d` with arbitrary
whitespace.  Anything else — in particular the empty input, on which Go's
`json.Unmarshal` reports "unexpected end of JSON input" — yields `none`. -/
def unmarshalStats (s : String) : Option (Int × Int) :=
  match skipWs s.data with
  | [] => none
  | c :: cs =>
    if c = Char.ofNat 123 then
      match expectKey "totalSizeBytes" cs with
      | none => none
      | some cs1 =>
        match parseIntChars (skipWs cs1) with
        | none => none
        | some (b, cs2) =>
          match skipWs cs2 with
          | ',' :: cs3 =>
            match expectKey "totalSessions" cs3 with
            | none => none
            | some cs4 =>
              match parseIntChars (skipWs cs4) with
              | none => none
              | some (n, cs5) =>
                match skipWs cs5 with
                | c2 :: cs6 =>
                  if c2 = Char.ofNat 125 ∧ skipWs cs6 = [] then some (b, n) else none
                | [] => none
          | _ => none
    else none

/-- Embeds `Stats.Load` (stats.go:36-57) over the snapshot file's observable state:
`none` = `os.ReadFile` fails with not-exist (start fresh, no error);
`some data` = the file's bytes, fed to `json.Unmarshal` — a parse failure is
returned as the load error with the totals left untouched.  Result: the
updated struct and whether an error was returned. -/
def Stats.Load (st : Stats) (file : Option String) : Stats × Bool :=
  match file with
  | none => (st, false)
  | some data =>
    match unmarshalStats data with
    | none => (st, true)
    | some (b, n) =>
      ({ st with TotalSizeBytes := b, TotalSessions := n }, false)

/-!
## Capture Producer: single recording run (src/unnamed/part_001, backend mode)

The offscreen document is single-threaded and cooperative; each event below is
one synchronous segment of a handler, acting on the module-level variables
`pendingChunks` / `stopRequested` / `stopResolve` plus the hidden state of the
`onstop` continuation.  This machine covers one recording lifecycle: the
alphabet has no `start-recording` reset (a new start is a new run).
-/

/-- The phase of the recording run: where the `MediaRecorder` callbacks and
the `onstop` continuation stand. -/
inductive Phase
  | capturing
  | stopping
  | draining
  | readyStop
  | stopSent
deriving DecidableEq, Repr

/-- Producer state for one run: `pending` is `pendingChunks`; `sent` counts
Data POSTs issued; `settled` counts Data POSTs whose `finally` ran;
`stopResolve` says a drain resolver is registered; `signaled` says the
resolver has been fired. -/
structure PState where
  pending : Nat
  sent : Nat
  settled : Nat
  stopRequested : Bool
  stopResolve : Bool
  signaled : Bool
  phase : Phase
deriving DecidableEq, Repr

/-- Initial producer state (module load / fresh start). -/
def pInit : PState :=
  { pending := 0, sent := 0, settled := 0,
    stopRequested := false, stopResolve := false, signaled := false,
    phase := .capturing }

/-- Producer events: a chunk became ready (`ondataavailable` calling
`sendChunkToBackend` up to issuing the fetch), a chunk's fetch settled (the
`finally` block), the stop-recording message handler, the start of the
`onstop` handler up to `waitForPendingChunks`, the drain promise waking the
continuation, and the continuation issuing the Stop POST. -/
inductive PEvent
  | chunkReady
  | chunkSettle
  | stopReq
  | onstopRun
  | drainWake
  | sendStop
deriving DecidableEq, Repr

/-- One atomic producer step; an event whose guard does not hold leaves the
state unchanged. -/
def pstep (s : PState) : PEvent → PState
  | .chunkReady =>
    if s.stopRequested then s
    else { s with pending := s.pending + 1, sent := s.sent + 1 }
  | .chunkSettle =>
    if s.settled < s.sent then
      let p := s.pending - 1
      let fire := s.stopRequested && (decide (p = 0) && s.stopResolve)
      { s with pending := p, settled := s.settled + 1,
               signaled := s.signaled || fire }
    else s
  | .stopReq =>
    if s.phase = .capturing then { s with stopRequested := true, phase := .stopping }
    else s
  | .onstopRun =>
    if s.phase = .stopping then
      if s.pending = 0 then { s with phase := .readyStop }
      else { s with stopResolve := true, phase := .draining }
    else s
  | .drainWake =>
    if s.phase = .draining ∧ s.signaled = true then { s with phase := .readyStop }
    else s
  | .sendStop =>
    if s.phase = .readyStop then { s with phase := .stopSent } else s

/-- Run a list of producer events. -/
def prun (s : PState) (evs : List PEvent) : PState :=
  evs.foldl pstep s

/-!
## Capture Producer: the process-wide flag across tabs (src/unnamed/part_001)

`pendingChunks`, `stopRequested` and `stopResolve` are module-level variables
shared by every tab's recorder.  This machine keeps the per-tab recorder set
and the ordered log of transported Data chunks, so that dropping is
observable.
-/

/-- Offscreen-document state across tabs.  `transported` is the ordered log of
tab ids whose Data chunk was POSTed; `inflight` counts POSTs not yet settled
(`pending` is the module variable, an `Int` because the reset to `0` can make
the later decrements drive it negative). -/
structure OState where
  recorders : List Int
  stopRequested : Bool
  pending : Int
  inflight : Nat
  stopResolve : Bool
  transported : List Int
deriving DecidableEq, Repr

/-- Offscreen document as loaded: no recorders, clear flag. -/
def oInit : OState :=
  { recorders := [], stopRequested := false, pending := 0, inflight := 0,
    stopResolve := false, transported := [] }

/-- Multi-tab events: the `start-recording` handler (which resets the three
globals, part_001:124-126), a chunk of `tab` reaching `sendChunkToBackend`, a
settle (`finally`), the `stop-recording` handler (sets the global flag,
part_001:306), and the `onstop` handler finalizing a stop with no pending
chunks and a successful Stop POST (which also resets the globals,
part_001:277-279). -/
inductive OEvent
  | startRec (tab : Int)
  | chunkReady (tab : Int)
  | chunkSettle
  | stopReq (tab : Int)
  | onstopFin (tab : Int)
deriving DecidableEq, Repr

/-- One atomic offscreen step. -/
def ostep (s : OState) : OEvent → OState
  | .startRec tab =>
    { s with recorders := insertS s.recorders tab,
             stopRequested := false, pending := 0, stopResolve := false }
  | .chunkReady tab =>
    if tab ∈ s.recorders then
      if s.stopRequested then s
      else { s with pending := s.pending + 1, inflight := s.inflight + 1,
                    transported := s.transported ++ [tab] }
    else s
  | .chunkSettle =>
    if 0 < s.inflight then
      { s with pending := s.pending - 1, inflight := s.inflight - 1 }
    else s
  | .stopReq tab =>
    if tab ∈ s.recorders then { s with stopRequested := true } else s
  | .onstopFin tab =>
    if tab ∈ s.recorders ∧ s.stopRequested ∧ s.pending = 0 then
      { s with recorders := eraseS s.recorders tab,
               stopRequested := false, pending := 0, stopResolve := false }
    else s

/-- Run a list of offscreen events. -/
def orun (s : OState) (evs : List OEvent) : OState :=
  evs.foldl ostep s

/-!
## Drivers for the testable properties
-/

/-- Concatenate chunk payloads. -/
def catBytes : List (List Nat) → List Nat
  | [] => []
  | d :: rest => d ++ catBytes rest

/-- Sum of chunk payload lengths. -/
def sumLens : List (List Nat) → Nat
  | [] => 0
  | d :: rest => d.length + sumLens rest

/-- Ingest a sequence of Data chunks for one session (all disk primitives
succeeding); the boolean records that every call returned without error. -/
def ingestChunks : Sys → Int → String → Int → List (List Nat) → Sys × Bool
  | sys, _, _, _, [] => (sys, true)
  | sys, tab, name, ts, d :: rest =>
    let r1 := HandleRecording sys tab name ts d "stream" wOK cOK
    let r2 := ingestChunks r1.1 tab name ts rest
    (r2.1, r1.2.isNone && r2.2)

/-- Run a list of complete sessions, each one Data chunk followed by a Stop,
all disk primitives succeeding; the boolean records that every call returned
without error. -/
def runSessions : Sys → List (Int × String × Int × List Nat) → Sys × Bool
  | sys, [] => (sys, true)
  | sys, (tab, name, ts, d) :: rest =>
    let r1 := HandleRecording sys tab name ts d "stream" wOK cOK
    let r2 := HandleRecording r1.1 tab name ts [] "stopped" wOK cOK
    let r3 := runSessions r2.1 rest
    (r3.1, r1.2.isNone && (r2.2.isNone && r3.2))

/-- The bytes of the named file, `[]` when the file does not exist. -/
def fileBytes (fs : FS) (fn : String) : List Nat :=
  match lookupK fs fn with
  | some r => r.content
  | none => []

/-- Sum of the payloads of a list of sessions `(tab, name, timestamp, data)`. -/
def sessionLens : List (Int × String × Int × List Nat) → Nat
  | [] => 0
  | (_, _, _, d) :: rest => d.length + sessionLens rest

/-- Mid-stream invariant for one session: the stopped marker is clear, the
tab's handle points at `fn` with an empty buffer, and the file holds `c`. -/
def GoodStream (sys : Sys) (tab : Int) (fn : String) (c : List Nat) (k : Nat) : Prop :=
  tab ∉ sys.rs.stoppedRecordings ∧
  lookupK sys.fws.activeFiles tab = some { filename := fn, buffer := [] } ∧
  lookupK sys.fs fn = some { content := c, closes := k }

/-- Between complete sessions the registry carries no per-session state. -/
def FreshSys (sys : Sys) : Prop :=
  sys.rs.activeRecordings = [] ∧ sys.rs.stoppedRecordings = [] ∧
  sys.rs.sessionInfo = [] ∧ sys.fws.activeFiles = []

/-- Inductive invariant of the single-run producer machine. -/
def PInv (s : PState) : Prop :=
  s.settled ≤ s.sent ∧
  s.pending = s.sent - s.settled ∧
  (s.phase ≠ .capturing → s.stopRequested = true) ∧
  (s.stopRequested = false →
    s.signaled = false ∧ s.stopResolve = false ∧ s.phase = .capturing) ∧
  (s.signaled = true → s.pending = 0) ∧
  ((s.phase = .readyStop ∨ s.phase = .stopSent) → s.pending = 0)

/-- Receiver state after a Stop whose `file.Close` failed: the extension
streamed one chunk for tab 3, then a Stop was processed during which the close
returned an error, so the stopped marker was retained. -/
def c2SysW : Sys :=
  (HandleRecording
    (HandleRecording (initSys "d") 3 "n" 0 [9] "stream" wOK cOK).1
    3 "n" 0 [] "stopped" wOK { flushFail := false, closeFail := true }).1

/-- Receiver state with an open handle for tab 7 (one chunk streamed). -/
def c6Sys : Sys :=
  (HandleRecording (initSys "d") 7 "n" 0 [9] "stream" wOK cOK).1

/-- Offscreen state with recorders for tabs 1 and 2 and the global
`stopRequested` flag set (as after a stop-recording message for tab 1). -/
def c9SysW : OState :=
  { recorders := [1, 2], stopRequested := true, pending := 0, inflight := 0,
    stopResolve := false, transported := [] }

end TabRecorder

open TabRecorder

/-! Association-list and set lemmas. -/

theorem lookupK_storeK_self {α β : Type} [DecidableEq α] (l : List (α × β)) (k : α) (v : β) :
    lookupK (storeK l k v) k = some v := by
  induction l with
  | nil => simp [storeK, lookupK]
  | cons p rest ih =>
    obtain ⟨k', v'⟩ := p
    by_cases h : k' = k
    · simp [storeK, lookupK, h]
    · simp [storeK, lookupK, h, ih]

theorem lookupK_eraseK_self {α β : Type} [DecidableEq α] (l : List (α × β)) (k : α) :
    lookupK (eraseK l k) k = none := by
  induction l with
  | nil => simp [eraseK, lookupK]
  | cons p rest ih =>
    obtain ⟨k', v'⟩ := p
    by_cases h : k' = k
    · simp [eraseK, h, ih]
    · simp [eraseK, lookupK, h, ih]

theorem eraseK_idem {α β : Type} [DecidableEq α] (l : List (α × β)) (k : α) :
    eraseK (eraseK l k) k = eraseK l k := by
  induction l with
  | nil => simp [eraseK]
  | cons p rest ih =>
    obtain ⟨k', v'⟩ := p
    by_cases h : k' = k
    · simp [eraseK, h, ih]
    · simp [eraseK, h, ih]

theorem eraseS_append (l1 l2 : List Int) (k : Int) :
    eraseS (l1 ++ l2) k = eraseS l1 k ++ eraseS l2 k := by
  induction l1 with
  | nil => simp [eraseS]
  | cons x rest ih =>
    by_cases h : x = k <;> simp [eraseS, h, ih]

theorem eraseS_insertS (l : List Int) (k : Int) :
    eraseS (insertS l k) k = eraseS l k := by
  by_cases h : k ∈ l
  · simp [insertS, h]
  · simp [insertS, h, eraseS_append, eraseS]

theorem eraseS_idem (l : List Int) (k : Int) :
    eraseS (eraseS l k) k = eraseS l k := by
  induction l with
  | nil => simp [eraseS]
  | cons x rest ih =>
    by_cases h : x = k <;> simp [eraseS, h, ih]

/-! Claim theorems. -/

/-- C5: processing Stop twice for the same tab is a no-op the second time —
both calls return without error, and the second call leaves the whole system
state (registry, file writer, stats, and disk, including each file's close
count) exactly as the first call left it, because the handle is already absent
from `activeFiles`. -/
theorem c5_stop_idempotent (sys : Sys) (tab : Int) (name : String) (ts : Int)
    (data : List Nat) :
    (HandleRecording sys tab name ts data "stopped" wOK cOK).2 = none ∧
    (HandleRecording (HandleRecording sys tab name ts data "stopped" wOK cOK).1
      tab name ts data "stopped" wOK cOK).2 = none ∧
    (HandleRecording (HandleRecording sys tab name ts data "stopped" wOK cOK).1
      tab name ts data "stopped" wOK cOK).1 =
    (HandleRecording sys tab name ts data "stopped" wOK cOK).1 := by
  cases h : lookupK sys.fws.activeFiles tab with
  | none =>
    refine ⟨?_, ?_, ?_⟩ <;>
      simp [HandleRecording, CloseFile, cOK, h, lookupK_eraseK_self,
            eraseS_insertS, eraseS_idem, eraseK_idem]
  | some hdl =>
    refine ⟨?_, ?_, ?_⟩ <;>
      simp [HandleRecording, CloseFile, cOK, h, lookupK_eraseK_self,
            eraseS_insertS, eraseS_idem, eraseK_idem]

/-- C2 (counterexample): ingest a Data chunk for tab 7, process its Stop
(which returns without error), then ingest another Data chunk for tab 7.  The
code accepts the late chunk (`none`, no state error) — the stopped marker was
deleted at the end of the successful Stop — and, because the chunk carries the
same name and timestamp, `os.Create` truncates the finished file, leaving it
holding only the late chunk's bytes. -/
theorem c2_counterexample_data_after_stop_accepted :
    (HandleRecording (HandleRecording (HandleRecording (initSys "d")
        7 "demo" 1000 [65] "stream" wOK cOK).1
        7 "demo" 1000 [] "stopped" wOK cOK).1
        7 "demo" 1000 [66] "stream" wOK cOK).2 = none ∧
    fileBytes (HandleRecording (HandleRecording (HandleRecording (initSys "d")
        7 "demo" 1000 [65] "stream" wOK cOK).1
        7 "demo" 1000 [] "stopped" wOK cOK).1
        7 "demo" 1000 [66] "stream" wOK cOK).1.fs
      (mkFilename "d" "demo" 7 1000) = [66] := by
  decide

/-- C2 (amended): a Data chunk for a tab is rejected with the "already
stopped" state error exactly while the stopped marker is present — i.e. during
Stop processing, or after a Stop whose file close failed, since only a fully
successful Stop deletes the marker — and the rejected call leaves the entire
system state, in particular the session's file, unchanged. -/
theorem c2_amended_reject_while_marker_present (sys : Sys) (tab : Int)
    (name : String) (ts : Int) (data : List Nat) (wf : WFaults) (cf : CFaults)
    (h : tab ∈ sys.rs.stoppedRecordings) :
    HandleRecording sys tab name ts data "stream" wf cf =
      (sys, some ("recording already stopped for tab " ++ toString tab)) := by
  simp [HandleRecording, h]

theorem c2_witness :
    3 ∈ c2SysW.rs.stoppedRecordings ∧
    HandleRecording c2SysW 3 "n" 0 [7] "stream" wOK cOK =
      (c2SysW, some ("recording already stopped for tab " ++ toString (3 : Int))) :=
  ⟨by decide, c2_amended_reject_while_marker_present c2SysW 3 "n" 0 [7] wOK cOK (by decide)⟩

/-- C6 (counterexample): with an open handle for tab 7, processing Stop while
`file.Close` fails makes `HandleRecording` return the wrapped close error to
the caller — not success as the claim states. -/
theorem c6_counterexample_close_failure_is_error :
    (HandleRecording c6Sys 7 "n" 0 [] "stopped" wOK
        { flushFail := false, closeFail := true }).2 =
      some "failed to stop recording: failed to close file" := by
  decide

/-- C6 (amended): during Stop, a failure of the final `Flush` is logged and
not re-raised — `HandleRecording` still returns success — but a failure of
`file.Close` is wrapped and returned to the caller as an error. -/
theorem c6_amended_flush_logged_close_raised (sys : Sys) (tab : Int)
    (name : String) (ts : Int) (data : List Nat) :
    (HandleRecording sys tab name ts data "stopped" wOK
        { flushFail := true, closeFail := false }).2 = none ∧
    (∀ hd : Handle, lookupK sys.fws.activeFiles tab = some hd →
      (HandleRecording sys tab name ts data "stopped" wOK
          { flushFail := false, closeFail := true }).2 =
        some "failed to stop recording: failed to close file") := by
  constructor
  · cases h : lookupK sys.fws.activeFiles tab <;>
      simp [HandleRecording, CloseFile, h]
  · intro hd hh
    simp [HandleRecording, CloseFile, hh]

theorem c6_witness :
    lookupK c6Sys.fws.activeFiles 7 = some { filename := "d/n_7_0.webm", buffer := [] } ∧
    (HandleRecording c6Sys 7 "n" 0 [] "stopped" wOK
        { flushFail := false, closeFail := true }).2 =
      some "failed to stop recording: failed to close file" :=
  ⟨by decide, (c6_amended_flush_logged_close_raised c6Sys 7 "n" 0 []).2
      { filename := "d/n_7_0.webm", buffer := [] } (by decide)⟩

/-- C7 (counterexample): a request whose status is neither "stream" nor
"stopped" makes the ingestion endpoint respond 500 Internal Server Error — a
server error, not the client error the claim states (the handler's only
client-error response is 400) — though the state is indeed unchanged. -/
theorem c7_counterexample_unknown_status_500 :
    handleRequest (initSys "d")
      { tabID := 3, name := "n", timestamp := 0, dataEnc := some [1],
        status := "bogus" } wOK cOK = (initSys "d", 500) ∧
    (handleRequest (initSys "d")
      { tabID := 3, name := "n", timestamp := 0, dataEnc := some [1],
        status := "bogus" } wOK cOK).2 ≠ 400 := by
  decide

/-- C7 (amended): an inbound message whose status is neither "stream" nor
"stopped" reaches `HandleRecording`'s default branch, which returns an error
without touching any Registry or File Writer state, and the endpoint maps that
error to a 500 server-error response (not a 4xx client error). -/
theorem c7_amended_unknown_status_server_error (sys : Sys) (req : ReqBody)
    (wf : WFaults) (cf : CFaults)
    (h1 : req.status ≠ "stream") (h2 : req.status ≠ "stopped") :
    handleRequest sys req wf cf = (sys, 500) := by
  simp [handleRequest, HandleRecording, h1, h2]

theorem c7_witness :
    (("weird" : String) ≠ "stream" ∧ ("weird" : String) ≠ "stopped") ∧
    handleRequest (initSys "d")
      { tabID := 3, name := "n", timestamp := 0, dataEnc := some [1],
        status := "weird" } wOK cOK = (initSys "d", 500) :=
  ⟨⟨by decide, by decide⟩,
   c7_amended_unknown_status_server_error (initSys "d")
     { tabID := 3, name := "n", timestamp := 0, dataEnc := some [1],
       status := "weird" } wOK cOK (by decide) (by decide)⟩

/-- C8 (counterexample): `Load` on an existing but empty snapshot file does
not yield zero totals without error as the claim states: the read succeeds
with zero bytes and `json.Unmarshal` of empty input fails, so `Load` returns a
load error. -/
theorem c8_counterexample_empty_file_is_load_error :
    Stats.Load initStats (some "") = (initStats, true) := by
  decide

/-- C8 (amended): `Load` on a missing snapshot yields the zero-initialized
totals (0, 0) without error; on any unparsable snapshot — the empty file
included — it returns a load error and leaves the totals untouched rather
than silently resetting them. -/
theorem c8_amended_load_behaviour (st : Stats) (s : String)
    (h : unmarshalStats s = none) :
    Stats.Load st none = (st, false) ∧
    Stats.Load st (some s) = (st, true) ∧
    (Stats.Load initStats none).1.TotalSizeBytes = 0 ∧
    (Stats.Load initStats none).1.TotalSessions = 0 := by
  refine ⟨rfl, ?_, rfl, rfl⟩
  simp [Stats.Load, h]

theorem c8_witness :
    unmarshalStats "oops" = none ∧
    (Stats.Load initStats none = (initStats, false) ∧
     Stats.Load initStats (some "oops") = (initStats, true) ∧
     (Stats.Load initStats none).1.TotalSizeBytes = 0 ∧
     (Stats.Load initStats none).1.TotalSessions = 0) :=
  ⟨by decide, c8_amended_load_behaviour initStats "oops" (by decide)⟩

/-- C10: when the buffered write succeeds but the flush fails, `WriteChunk`
(and hence the ingest call) returns an I/O error while `totalSize` has already
been increased by the chunk's length, so `GetTotalRecordedSize` — the number
the /api/stats endpoint reports — includes bytes of chunks whose ingest call
returned a flush error. -/
theorem c10_flush_fail_still_counted (sys : Sys) (tab : Int) (name : String)
    (ts : Int) (data : List Nat) (h : tab ∉ sys.rs.stoppedRecordings) :
    (HandleRecording sys tab name ts data "stream"
        { createFail := false, writeFail := false, flushFail := true } cOK).2 =
      some "failed to write recording chunk: disk flush failed" ∧
    GetTotalRecordedSize (HandleRecording sys tab name ts data "stream"
        { createFail := false, writeFail := false, flushFail := true } cOK).1.fws =
      sys.fws.totalSize + data.length := by
  cases hl : lookupK sys.fws.activeFiles tab <;>
    by_cases ha : tab ∈ sys.rs.activeRecordings <;>
      simp [HandleRecording, WriteChunk, writeToHandle, GetTotalRecordedSize, h, hl, ha]

theorem c10_witness :
    (3 : Int) ∉ (initSys "d").rs.stoppedRecordings ∧
    ((HandleRecording (initSys "d") 3 "n" 0 [1, 2] "stream"
        { createFail := false, writeFail := false, flushFail := true } cOK).2 =
      some "failed to write recording chunk: disk flush failed" ∧
     GetTotalRecordedSize (HandleRecording (initSys "d") 3 "n" 0 [1, 2] "stream"
        { createFail := false, writeFail := false, flushFail := true } cOK).1.fws =
      (initSys "d").fws.totalSize + ([1, 2] : List Nat).length) :=
  ⟨by decide, c10_flush_fail_still_counted (initSys "d") 3 "n" 0 [1, 2] (by decide)⟩

/-- C9 (counterexample): the claim's "until the next start-recording message"
clause fails: after start(1), start(2), stop-recording(1), the global
`stopRequested` flag is set, but the onstop handler finalizing tab 1's stop
resets it (part_001:277), so a subsequent chunk for tab 2 is transported with
no intervening start-recording message. -/
theorem c9_counterexample_chunk_sent_after_stop_without_start :
    (orun oInit [.startRec 1, .startRec 2, .stopReq 1]).stopRequested = true ∧
    (orun oInit [.startRec 1, .startRec 2, .stopReq 1, .onstopFin 1,
        .chunkReady 2]).transported = [2] := by
  decide

/-- C9 (amended): `stopRequested` and `pendingChunks` are single process-wide
variables shared by all tabs: while `stopRequested` is set,
`sendChunkToBackend` drops every chunk for every tab (no transport, no state
change); the flag is cleared — and the counter zeroed — by the next
start-recording message for any tab, and also by the onstop handler
successfully finalizing a stop. -/
theorem c9_amended_global_flag (s : OState) (t u : Int) :
    (s.stopRequested = true → ostep s (.chunkReady t) = s) ∧
    ((ostep s (.startRec u)).stopRequested = false ∧
     (ostep s (.startRec u)).pending = 0) ∧
    (t ∈ s.recorders ∧ s.stopRequested = true ∧ s.pending = 0 →
      (ostep s (.onstopFin t)).stopRequested = false) := by
  refine ⟨?_, ⟨rfl, rfl⟩, ?_⟩
  · intro h
    by_cases hm : t ∈ s.recorders <;> simp [ostep, hm, h]
  · rintro ⟨h1, h2, h3⟩
    simp [ostep, h1, h2, h3]

theorem c9_witness :
    c9SysW.stopRequested = true ∧ ((2 : Int) ∈ c9SysW.recorders ∧ c9SysW.pending = 0) ∧
    (ostep c9SysW (.chunkReady 2) = c9SysW ∧
     (ostep c9SysW (.startRec 5)).stopRequested = false ∧
     (ostep c9SysW (.onstopFin 2)).stopRequested = false) :=
  ⟨by decide, ⟨by decide, by decide⟩,
   ⟨(c9_amended_global_flag c9SysW 2 5).1 (by decide),
    (c9_amended_global_flag c9SysW 2 5).2.1.1,
    (c9_amended_global_flag c9SysW 2 5).2.2 ⟨by decide, by decide, by decide⟩⟩⟩

/-! Producer drain invariant (C4). -/

theorem pInv_init : PInv pInit := by
  refine ⟨?_, ?_, ?_, ?_, ?_, ?_⟩ <;> simp [pInit]

theorem pstep_inv (s : PState) (e : PEvent) (h : PInv s) : PInv (pstep s e) := by
  obtain ⟨h1, h2, h3, h4, h5, h6⟩ := h
  cases e with
  | chunkReady =>
    cases hs : s.stopRequested with
    | true => simpa [pstep, hs] using ⟨h1, h2, h3, h4, h5, h6⟩
    | false =>
      obtain ⟨hsi, hsr, hph⟩ := h4 hs
      have hred : pstep s PEvent.chunkReady =
          { s with pending := s.pending + 1, sent := s.sent + 1 } := by
        simp [pstep, hs]
      rw [hred]
      refine ⟨?_, ?_, ?_, ?_, ?_, ?_⟩
      · show s.settled ≤ s.sent + 1
        omega
      · show s.pending + 1 = s.sent + 1 - s.settled
        omega
      · show s.phase ≠ Phase.capturing → s.stopRequested = true
        simp [hph]
      · intro hb
        exact ⟨hsi, hsr, hph⟩
      · show s.signaled = true → s.pending + 1 = 0
        simp [hsi]
      · show (s.phase = Phase.readyStop ∨ s.phase = Phase.stopSent) → s.pending + 1 = 0
        simp [hph]
  | chunkSettle =>
    by_cases hlt : s.settled < s.sent
    · have hsig : s.signaled = false := by
        cases hsg : s.signaled
        · rfl
        · exfalso
          have := h5 hsg
          omega
      have hph6 : ¬(s.phase = Phase.readyStop ∨ s.phase = Phase.stopSent) := by
        intro hor
        have := h6 hor
        omega
      have hred : pstep s PEvent.chunkSettle =
          { s with pending := s.pending - 1, settled := s.settled + 1,
                   signaled := s.signaled ||
                     (s.stopRequested && (decide (s.pending - 1 = 0) && s.stopResolve)) } := by
        simp [pstep, hlt]
      rw [hred]
      refine ⟨?_, ?_, ?_, ?_, ?_, ?_⟩
      · show s.settled + 1 ≤ s.sent
        omega
      · show s.pending - 1 = s.sent - (s.settled + 1)
        omega
      · exact h3
      · intro hb
        obtain ⟨_, hsr4, hph4⟩ := h4 hb
        simp [hb, hsig, hsr4, hph4]
      · intro hsg
        simp only [hsig, Bool.false_or, Bool.and_eq_true, decide_eq_true_eq] at hsg
        exact hsg.2.1
      · intro hor
        exact absurd hor hph6
    · simpa [pstep, hlt] using ⟨h1, h2, h3, h4, h5, h6⟩
  | stopReq =>
    by_cases hp : s.phase = Phase.capturing
    · have hred : pstep s PEvent.stopReq =
          { s with stopRequested := true, phase := Phase.stopping } := by
        simp [pstep, hp]
      rw [hred]
      refine ⟨h1, h2, ?_, ?_, h5, ?_⟩
      · intro _
        rfl
      · simp
      · simp
    · simpa [pstep, hp] using ⟨h1, h2, h3, h4, h5, h6⟩
  | onstopRun =>
    by_cases hp : s.phase = Phase.stopping
    · have hreq : s.stopRequested = true := h3 (by simp [hp])
      by_cases hz : s.pending = 0
      · have hred : pstep s PEvent.onstopRun = { s with phase := Phase.readyStop } := by
          simp [pstep, hp, hz]
        rw [hred]
        refine ⟨h1, h2, ?_, ?_, h5, ?_⟩
        · intro _
          exact hreq
        · simp [hreq]
        · intro _
          exact hz
      · have hred : pstep s PEvent.onstopRun =
            { s with stopResolve := true, phase := Phase.draining } := by
          simp [pstep, hp, hz]
        rw [hred]
        refine ⟨h1, h2, ?_, ?_, h5, ?_⟩
        · intro _
          exact hreq
        · simp [hreq]
        · simp
    · simpa [pstep, hp] using ⟨h1, h2, h3, h4, h5, h6⟩
  | drainWake =>
    by_cases hc : s.phase = Phase.draining ∧ s.signaled = true
    · have hreq : s.stopRequested = true := h3 (by simp [hc.1])
      have hz : s.pending = 0 := h5 hc.2
      have hred : pstep s PEvent.drainWake = { s with phase := Phase.readyStop } := by
        simp [pstep, hc.1, hc.2]
      rw [hred]
      refine ⟨h1, h2, ?_, ?_, h5, ?_⟩
      · intro _
        exact hreq
      · simp [hreq]
      · intro _
        exact hz
    · simpa [pstep, hc] using ⟨h1, h2, h3, h4, h5, h6⟩
  | sendStop =>
    by_cases hp : s.phase = Phase.readyStop
    · have hreq : s.stopRequested = true := h3 (by simp [hp])
      have hz : s.pending = 0 := h6 (Or.inl hp)
      have hred : pstep s PEvent.sendStop = { s with phase := Phase.stopSent } := by
        simp [pstep, hp]
      rw [hred]
      refine ⟨h1, h2, ?_, ?_, h5, ?_⟩
      · intro _
        exact hreq
      · simp [hreq]
      · intro _
        exact hz
    · simpa [pstep, hp] using ⟨h1, h2, h3, h4, h5, h6⟩

theorem prun_inv (evs : List PEvent) : ∀ s : PState, PInv s → PInv (prun s evs) := by
  induction evs with
  | nil =>
    intro s h
    exact h
  | cons e rest ih =>
    intro s h
    simpa [prun] using ih (pstep s e) (pstep_inv s e h)

/-- C4: in every execution of the backend-mode producer (any interleaving of
chunk arrivals, transport settlements, the stop request, the onstop handler
and the drain wake-up in one recording run), the Stop message is transported
only once the in-flight counter is zero and every previously issued Data POST
has settled; the machine leaves the Draining phase only through the completion
signal fired by the last settling chunk, never by polling. -/
theorem c4_stop_only_after_drain (evs : List PEvent)
    (h : (prun pInit evs).phase = Phase.stopSent) :
    (prun pInit evs).pending = 0 ∧
    (prun pInit evs).sent = (prun pInit evs).settled := by
  obtain ⟨h1, h2, _, _, _, h6⟩ := prun_inv evs pInit pInv_init
  have hp : (prun pInit evs).pending = 0 := h6 (Or.inr h)
  refine ⟨hp, ?_⟩
  omega

theorem c4_witness :
    (prun pInit [.chunkReady, .stopReq, .onstopRun, .chunkSettle, .drainWake,
        .sendStop]).phase = Phase.stopSent ∧
    ((prun pInit [.chunkReady, .stopReq, .onstopRun, .chunkSettle, .drainWake,
        .sendStop]).pending = 0 ∧
     (prun pInit [.chunkReady, .stopReq, .onstopRun, .chunkSettle, .drainWake,
        .sendStop]).sent =
     (prun pInit [.chunkReady, .stopReq, .onstopRun, .chunkSettle, .drainWake,
        .sendStop]).settled) :=
  ⟨by decide, c4_stop_only_after_drain
    [.chunkReady, .stopReq, .onstopRun, .chunkSettle, .drainWake, .sendStop]
    (by decide)⟩

/-! One-session stream accumulation (C1). -/

theorem stream_step (sys : Sys) (tab : Int) (name : String) (ts : Int) (d : List Nat)
    (fn : String) (c : List Nat) (k : Nat) (h : GoodStream sys tab fn c k) :
    (HandleRecording sys tab name ts d "stream" wOK cOK).2 = none ∧
    GoodStream (HandleRecording sys tab name ts d "stream" wOK cOK).1 tab fn (c ++ d) k ∧
    (HandleRecording sys tab name ts d "stream" wOK cOK).1.fws.totalSize =
      sys.fws.totalSize + d.length := by
  obtain ⟨hstop, hh, hf⟩ := h
  by_cases ha : tab ∈ sys.rs.activeRecordings
  all_goals
    refine ⟨?_, ?_, ?_⟩ <;>
      simp [HandleRecording, WriteChunk, writeToHandle, wOK, fsAppend, GoodStream,
        hstop, hh, hf, ha, lookupK_storeK_self] <;>
      (try (split <;> simp [hstop]))

theorem stream_run (chunks : List (List Nat)) :
    ∀ (sys : Sys) (tab : Int) (name : String) (ts : Int) (fn : String)
      (c : List Nat) (k : Nat), GoodStream sys tab fn c k →
      (ingestChunks sys tab name ts chunks).2 = true ∧
      GoodStream (ingestChunks sys tab name ts chunks).1 tab fn (c ++ catBytes chunks) k ∧
      (ingestChunks sys tab name ts chunks).1.fws.totalSize =
        sys.fws.totalSize + sumLens chunks := by
  induction chunks with
  | nil =>
    intro sys tab name ts fn c k hg
    simpa [ingestChunks, catBytes, sumLens] using hg
  | cons d rest ih =>
    intro sys tab name ts fn c k hg
    obtain ⟨he, hg1, ht⟩ := stream_step sys tab name ts d fn c k hg
    obtain ⟨hok, hg2, ht2⟩ := ih (HandleRecording sys tab name ts d "stream" wOK cOK).1
      tab name ts fn (c ++ d) k hg1
    refine ⟨?_, ?_, ?_⟩
    · simp [ingestChunks, he, hok]
    · simpa [ingestChunks, catBytes, List.append_assoc] using hg2
    · simp only [ingestChunks]
      rw [ht2, ht, sumLens]
      push_cast
      ring

/-- C1: for every sequence of Data chunks ingested for one session before its
Stop, with every write succeeding, every ingest call returns without error and
the session's file holds exactly the concatenation of the chunk payloads in
acceptance order (so its length is the sum of the payload lengths), and the
writer's running total grows by exactly that sum. -/
theorem c1_file_is_concat_of_chunks (dir name : String) (tab ts : Int)
    (chunks : List (List Nat)) :
    (ingestChunks (initSys dir) tab name ts chunks).2 = true ∧
    fileBytes (ingestChunks (initSys dir) tab name ts chunks).1.fs
      (mkFilename dir name tab ts) = catBytes chunks ∧
    (ingestChunks (initSys dir) tab name ts chunks).1.fws.totalSize = sumLens chunks := by
  cases chunks with
  | nil => simp [ingestChunks, fileBytes, initSys, lookupK, catBytes, sumLens]
  | cons d rest =>
    have h1 : (HandleRecording (initSys dir) tab name ts d "stream" wOK cOK).2 = none ∧
        GoodStream (HandleRecording (initSys dir) tab name ts d "stream" wOK cOK).1
          tab (mkFilename dir name tab ts) d 0 ∧
        (HandleRecording (initSys dir) tab name ts d "stream" wOK cOK).1.fws.totalSize
          = d.length := by
      refine ⟨?_, ?_, ?_⟩ <;>
        simp [HandleRecording, WriteChunk, writeToHandle, wOK, initSys, fsCreate,
          fsAppend, lookupK, storeK, GoodStream, lookupK_storeK_self]
    obtain ⟨he, hg, ht⟩ := h1
    obtain ⟨hok, hg2, ht2⟩ := stream_run rest
      (HandleRecording (initSys dir) tab name ts d "stream" wOK cOK).1
      tab name ts (mkFilename dir name tab ts) d 0 hg
    obtain ⟨_, _, hfl⟩ := hg2
    refine ⟨?_, ?_, ?_⟩
    · simp [ingestChunks, he, hok]
    · simp [ingestChunks, fileBytes, hfl, catBytes]
    · simp only [ingestChunks]
      rw [ht2, ht, sumLens]
      push_cast
      ring

/-! Independent sessions and the two byte totals (C3). -/

theorem session_step (sys : Sys) (tab : Int) (name : String) (ts : Int) (d : List Nat)
    (hf : FreshSys sys) :
    (HandleRecording sys tab name ts d "stream" wOK cOK).2 = none ∧
    (HandleRecording (HandleRecording sys tab name ts d "stream" wOK cOK).1
      tab name ts [] "stopped" wOK cOK).2 = none ∧
    FreshSys (HandleRecording (HandleRecording sys tab name ts d "stream" wOK cOK).1
      tab name ts [] "stopped" wOK cOK).1 ∧
    (HandleRecording (HandleRecording sys tab name ts d "stream" wOK cOK).1
      tab name ts [] "stopped" wOK cOK).1.stats.TotalSessions =
      sys.stats.TotalSessions + 1 ∧
    (HandleRecording (HandleRecording sys tab name ts d "stream" wOK cOK).1
      tab name ts [] "stopped" wOK cOK).1.stats.TotalSizeBytes =
      sys.stats.TotalSizeBytes ∧
    (HandleRecording (HandleRecording sys tab name ts d "stream" wOK cOK).1
      tab name ts [] "stopped" wOK cOK).1.fws.totalSize =
      sys.fws.totalSize + d.length := by
  obtain ⟨hact, hstp, hsi, haf⟩ := hf
  refine ⟨?_, ?_, ?_, ?_, ?_, ?_⟩ <;>
    simp [HandleRecording, WriteChunk, writeToHandle, CloseFile, wOK, cOK,
      Stats.IncrementSession, FreshSys, insertS, eraseS, eraseK, storeK, lookupK,
      hact, hstp, hsi, haf]

theorem sessions_run (sessions : List (Int × String × Int × List Nat)) :
    ∀ sys : Sys, FreshSys sys →
      (runSessions sys sessions).2 = true ∧
      FreshSys (runSessions sys sessions).1 ∧
      (runSessions sys sessions).1.stats.TotalSessions =
        sys.stats.TotalSessions + sessions.length ∧
      (runSessions sys sessions).1.stats.TotalSizeBytes = sys.stats.TotalSizeBytes ∧
      (runSessions sys sessions).1.fws.totalSize =
        sys.fws.totalSize + sessionLens sessions := by
  induction sessions with
  | nil =>
    intro sys hf
    simpa [runSessions, sessionLens] using hf
  | cons q rest ih =>
    obtain ⟨tab, name, ts, d⟩ := q
    intro sys hf
    obtain ⟨he1, he2, hf2, hsess, hbytes, htot⟩ := session_step sys tab name ts d hf
    obtain ⟨hok, hf3, hsess2, hbytes2, htot2⟩ := ih
      (HandleRecording (HandleRecording sys tab name ts d "stream" wOK cOK).1
        tab name ts [] "stopped" wOK cOK).1 hf2
    refine ⟨?_, ?_, ?_, ?_, ?_⟩
    · simp [runSessions, he1, he2, hok]
    · simpa [runSessions] using hf3
    · simp only [runSessions]
      rw [hsess2, hsess]
      simp only [List.length_cons]
      omega
    · simp only [runSessions]
      rw [hbytes2, hbytes]
    · simp only [runSessions]
      rw [htot2, htot, sessionLens]
      push_cast
      ring

/-- C3 (counterexample): one session (N = 1) successfully writes k = 4 bytes
and stops, yet the persisted Stats record's byte total is 0, not N*k = 4 —
`Stats.AddSize` is never called by any code in the repository; the per-write
byte accounting goes to the File Writer's `totalSize` instead. -/
theorem c3_counterexample_stats_bytes_not_updated :
    (runSessions (initSys "d") [(7, "demo", 1000, [65, 65, 65, 65])]).1.stats.TotalSizeBytes
        = 0 ∧
    (runSessions (initSys "d") [(7, "demo", 1000, [65, 65, 65, 65])]).1.stats.TotalSizeBytes
        ≠ 4 ∧
    (runSessions (initSys "d") [(7, "demo", 1000, [65, 65, 65, 65])]).1.stats.TotalSessions
        = 1 ∧
    (runSessions (initSys "d") [(7, "demo", 1000, [65, 65, 65, 65])]).1.fws.totalSize = 4 := by
  decide

/-- C3 (amended): after N independent sessions that each stream their bytes
and stop, all calls succeed, the Stats Aggregator's `totalSessions` equals N,
and the sum of the written bytes is accumulated in the File Writer's running
`totalSize` (N*k when each session writes k bytes) — while the Stats record's
`totalSizeBytes` remains 0, because no caller ever invokes `Stats.AddSize`. -/
theorem c3_amended_totals (dir : String)
    (sessions : List (Int × String × Int × List Nat)) :
    (runSessions (initSys dir) sessions).2 = true ∧
    (runSessions (initSys dir) sessions).1.stats.TotalSessions = sessions.length ∧
    (runSessions (initSys dir) sessions).1.stats.TotalSizeBytes = 0 ∧
    (runSessions (initSys dir) sessions).1.fws.totalSize = sessionLens sessions := by
  obtain ⟨h1, _, h3, h4, h5⟩ := sessions_run sessions (initSys dir) ⟨rfl, rfl, rfl, rfl⟩
  refine ⟨h1, ?_, ?_, ?_⟩
  · simpa [initSys, initStats] using h3
  · simpa [initSys, initStats] using h4
  · simpa [initSys] using h5
